import Mathlib

/-!
Shallow embedding of ShotMaster 1.4 (src/shotmaster_1_4.py), restricted to the
render core: hierarchical settings resolution (`setup_render_settings`,
lines 956-1051), output-path derivation (`get_camera_output_path`,
lines 901-953), environment restoration (`restore_render_settings`,
lines 1054-1067), render orchestration (`render_from_camera`,
lines 1070-1160) and the statistics engine attribution
(`get_camera_statistics`, line 1227).

Blender's shared scene state (`bpy.context.scene` / `context.scene.render` /
`context.window`) is modelled as an explicit `Scene` record threaded through
the functions.  Host failures (directory creation, render-engine calls) are
modelled by a `RenderOracle` supplying the success/failure of each call, and
wall-clock time by an explicit `duration` argument.  Python string truthiness
(`if group_name:`) is modelled as a non-emptiness test, and the alphanumeric
test of `str.isalnum` is modelled over the ASCII range by `Char.isAlphanum`.
-/

namespace ShotMaster

/-- One entry of a camera's `render_passes` collection (class `RenderPassItem`). -/
structure RenderPass where
  name : String
  pass_type : String
  enabled : Bool
deriving DecidableEq, Repr

/-- The `shotmaster_camera` property group attached to a camera object
(fields read by the render core). -/
structure CameraProps where
  group : String
  use_custom_render_settings : Bool
  render_engine : String
  use_custom_resolution : Bool
  resolution_x : Nat
  resolution_y : Nat
  resolution_percentage : Nat
  cycles_samples : Nat
  eevee_samples : Nat
  use_custom_output_path : Bool
  output_path : String
  use_custom_view_layer : Bool
  view_layer : String
  use_custom_frames : Bool
  start_frame : Int
  end_frame : Int
  use_render_passes : Bool
  render_passes : List RenderPass
  filename : String
  file_format : String
  shot_type : String
  shot_size : String
  equipment : String
deriving DecidableEq, Repr

/-- A camera object: Blender object name, its ShotMaster properties and its
object type (`camera.type`, checked against `'CAMERA'`). -/
structure Camera where
  name : String
  shotmaster_camera : CameraProps
  objType : String
deriving DecidableEq, Repr

/-- One entry of `scene.shotmaster_camera_groups` (class `CameraGroupItem`),
restricted to the fields the render core reads. -/
structure Group where
  name : String
  use_custom_render_settings : Bool
  render_engine : String
  use_custom_resolution : Bool
  resolution_x : Nat
  resolution_y : Nat
  resolution_percentage : Nat
  cycles_samples : Nat
  eevee_samples : Nat
  use_custom_output_path : Bool
  output_path : String
  use_custom_view_layer : Bool
  view_layer : String
deriving DecidableEq, Repr

/-- `scene.shotmaster_settings` (class `ShotMasterSettings`), restricted to
the fields the render core reads or writes.  Render durations are modelled
with natural numbers. -/
structure MasterSettings where
  master_render_engine : String
  master_resolution_x : Nat
  master_resolution_y : Nat
  master_resolution_percentage : Nat
  master_cycles_samples : Nat
  master_eevee_samples : Nat
  master_output_path : String
  master_start_frame : Int
  master_end_frame : Int
  total_renders : Nat
  last_render_time : Nat
  total_render_time : Nat
deriving DecidableEq, Repr

/-- The shared render environment: the mutable Blender state touched by the
render core (`scene.render.*`, `scene.cycles.samples`,
`scene.eevee.taa_render_samples`, `scene.camera`, `scene.frame_start/end`,
`context.window.view_layer`) together with the read-only configuration
(`shotmaster_camera_groups`, `shotmaster_settings`, the scene's view layer
names and the blend-file directory used by `bpy.path.abspath`). -/
structure Scene where
  engine : String
  resolution_x : Nat
  resolution_y : Nat
  resolution_percentage : Nat
  filepath : String
  file_format : String
  camera : Option Camera
  frame_start : Int
  frame_end : Int
  cycles_samples : Nat
  eevee_samples : Nat
  view_layer : String
  view_layers : List String
  shotmaster_camera_groups : List Group
  shotmaster_settings : MasterSettings
  blend_dir : String
deriving DecidableEq, Repr

/-- The `original_settings` dictionary built at lines 962-972 and consumed by
`restore_render_settings` (lines 1054-1067). -/
structure OriginalSettings where
  engine : String
  resolution_x : Nat
  resolution_y : Nat
  resolution_percentage : Nat
  filepath : String
  file_format : String
  active_camera : Option Camera
  frame_start : Int
  frame_end : Int
deriving DecidableEq, Repr

/-! ## Path derivation (lines 901-953) -/

/-- Kernel-computable string prefix test (the library `String.startsWith`
does not reduce inside the kernel). -/
def strStartsWith (s pre : String) : Bool := pre.data.isPrefixOf s.data

/-- Kernel-computable string suffix test. -/
def strEndsWith (s suf : String) : Bool := suf.data.isSuffixOf s.data

/-- Kernel-computable character drop. -/
def strDrop (s : String) (n : Nat) : String := String.mk (s.data.drop n)

/-- `bpy.path.abspath`: a `//`-relative path is resolved against the blend
file's directory; any other path is returned unchanged. -/
def bpy_abspath (blend_dir p : String) : String :=
  if strStartsWith p "//" then blend_dir ++ strDrop p 2 else p

/-- `os.path.join` (POSIX) on two components: an absolute second component
discards the first; otherwise a separator is inserted unless the first
component is empty or already ends with one. -/
def os_path_join (a b : String) : String :=
  if strStartsWith b "/" then b
  else if a = "" || strEndsWith a "/" then a ++ b
  else a ++ "/" ++ b

/-- The character class kept by sanitization (line 926/934):
`c.isalnum() or c in " _-"`. -/
def keepChar (c : Char) : Bool :=
  c.isAlphanum || c == ' ' || c == '_' || c == '-'

/-- Python `str.strip()` applied to a string whose characters were already
filtered to alphanumerics, spaces, underscores and hyphens: only spaces can
be stripped from either end. -/
def stripSpaces (l : List Char) : List Char :=
  ((l.dropWhile (fun c => c == ' ')).reverse.dropWhile (fun c => c == ' ')).reverse

/-- Name sanitization (lines 926-927 and 934-935): keep only alphanumerics,
spaces, underscores and hyphens, strip, then replace spaces with
underscores. -/
def sanitizeName (nm : String) : String :=
  String.mk ((stripSpaces (nm.data.filter keepChar)).map
    (fun c => if c == ' ' then '_' else c))

/-- `ShotMasterManager.get_camera_output_path` (lines 901-953).
`pass_name = some ""` behaves like `none` (Python string truthiness). -/
def get_camera_output_path (camera : Camera) (render_animation : Bool)
    (pass_name : Option String) (s : Scene) : String :=
  let base_path := bpy_abspath s.blend_dir s.shotmaster_settings.master_output_path
  let group_name := camera.shotmaster_camera.group
  -- lines 912-917: the loop breaks at the first group matching by name that
  -- has `use_custom_output_path`; a matching group without that flag does
  -- not stop the search.
  let base_path :=
    if group_name == "" then base_path
    else
      match s.shotmaster_camera_groups.find?
          (fun g => g.name == group_name && g.use_custom_output_path) with
      | some group =>
          if group.output_path == "" then base_path
          else bpy_abspath s.blend_dir group.output_path
      | none => base_path
  -- lines 920-921
  let base_path :=
    if camera.shotmaster_camera.use_custom_output_path
        && !(camera.shotmaster_camera.output_path == "") then
      bpy_abspath s.blend_dir camera.shotmaster_camera.output_path
    else base_path
  -- lines 924-931
  let group_path :=
    if group_name == "" then os_path_join base_path "ungrouped"
    else os_path_join base_path (sanitizeName group_name)
  -- lines 933-935
  let cam_seg := sanitizeName camera.name
  -- lines 938-951 (`if pass_name:` is falsy for the empty string)
  let pn : Option String :=
    match pass_name with
    | some p => if p == "" then none else some p
    | none => none
  if render_animation then
    match pn with
    | some p => os_path_join (os_path_join (os_path_join group_path cam_seg) "animation") p
    | none => os_path_join (os_path_join group_path cam_seg) "animation"
  else
    match pn with
    | some p => os_path_join (os_path_join (os_path_join group_path cam_seg) "stills") p
    | none => os_path_join (os_path_join group_path cam_seg) "stills"

/-! ## Settings resolution (`setup_render_settings`, lines 956-1051)

The Python function is a single sequence of in-place mutations of the scene.
It is embedded as a pipeline of small state transformers, one per source
block, composed in source order. -/

/-- The snapshot taken at lines 962-972. -/
def snapshot_fields (s : Scene) : OriginalSettings :=
  { engine := s.engine
    resolution_x := s.resolution_x
    resolution_y := s.resolution_y
    resolution_percentage := s.resolution_percentage
    filepath := s.filepath
    file_format := s.file_format
    active_camera := s.camera
    frame_start := s.frame_start
    frame_end := s.frame_end }

/-- Lines 975-983: apply master engine, resolution and the sample count of
the engine just applied. -/
def apply_master_settings (s : Scene) : Scene :=
  let ms := s.shotmaster_settings
  let s := { s with engine := ms.master_render_engine,
                    resolution_x := ms.master_resolution_x,
                    resolution_y := ms.master_resolution_y,
                    resolution_percentage := ms.master_resolution_percentage }
  if s.engine == "CYCLES" then { s with cycles_samples := ms.master_cycles_samples }
  else if s.engine == "BLENDER_EEVEE" then { s with eevee_samples := ms.master_eevee_samples }
  else s

/-- Lines 985-1008: apply the settings of the first group whose name matches
the camera's group reference, if any.  Engine, resolution and samples are all
gated behind the group's `use_custom_render_settings`; the view layer is
applied independently. -/
def apply_group_settings (camera : Camera) (s : Scene) : Scene :=
  let group_name := camera.shotmaster_camera.group
  if group_name == "" then s
  else
    match s.shotmaster_camera_groups.find? (fun g => g.name == group_name) with
    | none => s
    | some group =>
      let s :=
        if group.use_custom_render_settings then
          let s := { s with engine := group.render_engine }
          let s :=
            if group.use_custom_resolution then
              { s with resolution_x := group.resolution_x,
                       resolution_y := group.resolution_y,
                       resolution_percentage := group.resolution_percentage }
            else s
          if s.engine == "CYCLES" then { s with cycles_samples := group.cycles_samples }
          else if s.engine == "BLENDER_EEVEE" then { s with eevee_samples := group.eevee_samples }
          else s
        else s
      if group.use_custom_view_layer && s.view_layers.contains group.view_layer then
        { s with view_layer := group.view_layer }
      else s

/-- Lines 1011-1022: apply camera engine, resolution and samples, all gated
behind the camera's `use_custom_render_settings` (the resolution toggle is
nested inside that branch in the source). -/
def apply_camera_render_settings (camera : Camera) (s : Scene) : Scene :=
  let sc := camera.shotmaster_camera
  if sc.use_custom_render_settings then
    let s := { s with engine := sc.render_engine }
    let s :=
      if sc.use_custom_resolution then
        { s with resolution_x := sc.resolution_x,
                 resolution_y := sc.resolution_y,
                 resolution_percentage := sc.resolution_percentage }
      else s
    if s.engine == "CYCLES" then { s with cycles_samples := sc.cycles_samples }
    else if s.engine == "BLENDER_EEVEE" then { s with eevee_samples := sc.eevee_samples }
    else s
  else s

/-- Lines 1025-1026: apply the camera's custom view layer when it names an
existing view layer. -/
def apply_camera_view_layer (camera : Camera) (s : Scene) : Scene :=
  let sc := camera.shotmaster_camera
  if sc.use_custom_view_layer && s.view_layers.contains sc.view_layer then
    { s with view_layer := sc.view_layer }
  else s

/-- Lines 1034-1039: frame range from the camera when `use_custom_frames`,
else from master settings. -/
def apply_frame_range (camera : Camera) (s : Scene) : Scene :=
  if camera.shotmaster_camera.use_custom_frames then
    { s with frame_start := camera.shotmaster_camera.start_frame,
             frame_end := camera.shotmaster_camera.end_frame }
  else
    { s with frame_start := s.shotmaster_settings.master_start_frame,
             frame_end := s.shotmaster_settings.master_end_frame }

/-- Line 1042: make this camera the active scene camera. -/
def apply_active_camera (camera : Camera) (s : Scene) : Scene :=
  { s with camera := some camera }

/-- Lines 1044-1049: for non-viewport renders, set the output file format
from the camera. -/
def apply_output_format (camera : Camera) (is_viewport : Bool) (s : Scene) : Scene :=
  if is_viewport then s
  else { s with file_format := camera.shotmaster_camera.file_format }

/-- `ShotMasterManager.setup_render_settings` (lines 956-1051): snapshot the
environment, then apply master, group and camera settings in source order.
Returns the snapshot together with the mutated scene. -/
def setup_render_settings (camera : Camera) (is_viewport : Bool) (s : Scene) :
    OriginalSettings × Scene :=
  (snapshot_fields s,
    apply_output_format camera is_viewport
      (apply_active_camera camera
        (apply_frame_range camera
          (apply_camera_view_layer camera
            (apply_camera_render_settings camera
              (apply_group_settings camera
                (apply_master_settings s)))))))

/-- `ShotMasterManager.restore_render_settings` (lines 1054-1067): write the
nine snapshotted fields back; sample counts and the active view layer are not
among them. -/
def restore_render_settings (original : OriginalSettings) (s : Scene) : Scene :=
  { s with engine := original.engine,
           resolution_x := original.resolution_x,
           resolution_y := original.resolution_y,
           resolution_percentage := original.resolution_percentage,
           filepath := original.filepath,
           file_format := original.file_format,
           camera := original.active_camera,
           frame_start := original.frame_start,
           frame_end := original.frame_end }

/-! ## Render orchestration (`render_from_camera`, lines 1070-1160) -/

/-- Success/failure of the host calls made during one job: the viewport
OpenGL render (line 1094), directory creation per target directory
(lines 1117 and 1122), and the render-engine call for the pass at each
position of the pass sequence (lines 1130-1133). -/
structure RenderOracle where
  opengl_ok : Bool
  mkdir_ok : String → Bool
  render_ok : Nat → Bool

/-- Accumulator of the pass loop: current scene, whether any pass has
succeeded so far (`success`, line 1079/1135) and how many render-engine
invocations have been made. -/
structure PassState where
  scene : Scene
  success : Bool
  engine_calls : Nat
deriving Repr

/-- Lines 1098-1107: the pass sequence — the names of the enabled passes in
order when `use_render_passes`, else a single anonymous pass. -/
def passes_to_render (camera : Camera) : List (Option String) :=
  if camera.shotmaster_camera.use_render_passes then
    (camera.shotmaster_camera.render_passes.filter (fun p => p.enabled)).map
      (fun p => some p.name)
  else [none]

/-- One iteration of the pass loop (lines 1110-1139).  Directory-creation
failure falls back to `//renders/`; if creating the fallback also fails the
exception is caught by the per-pass handler and the pass is skipped without a
render call.  Otherwise the output filepath is set and the engine invoked;
`success` becomes true if any invocation succeeds. -/
def render_one_pass (camera : Camera) (render_animation : Bool)
    (oracle : RenderOracle) (idx : Nat) (pass_name : Option String)
    (st : PassState) : PassState :=
  let output_dir := get_camera_output_path camera render_animation pass_name st.scene
  let dir_result : Option String :=
    if oracle.mkdir_ok output_dir then some output_dir
    else
      let fallback := bpy_abspath st.scene.blend_dir "//renders/"
      if oracle.mkdir_ok fallback then some fallback else none
  match dir_result with
  | none => st
  | some dir =>
    let pass_suffix :=
      match pass_name with
      | some p => if p == "" then "" else "_" ++ p
      | none => ""
    let filename := camera.shotmaster_camera.filename ++ "_" ++ camera.name ++ pass_suffix
    let scene := { st.scene with filepath := os_path_join dir filename }
    { scene := scene
      success := st.success || oracle.render_ok idx
      engine_calls := st.engine_calls + 1 }

/-- Result of the `try` body of `render_from_camera`: whether an exception
escaped to the outer handler, the `success` flag, the scene, and the number
of render-engine invocations. -/
structure BodyResult where
  raised : Bool
  success : Bool
  scene : Scene
  engine_calls : Nat
deriving Repr

/-- Lines 1086-1139: the viewport branch (an OpenGL render whose failure
escapes to the outer handler; viewport animation does nothing) or the pass
loop, whose per-pass failures are all caught. -/
def render_body (camera : Camera) (render_animation is_viewport : Bool)
    (oracle : RenderOracle) (s : Scene) : BodyResult :=
  if is_viewport then
    if render_animation then ⟨false, false, s, 0⟩
    else if oracle.opengl_ok then ⟨false, true, s, 1⟩
    else ⟨true, false, s, 1⟩
  else
    let st := (passes_to_render camera).enum.foldl
      (fun st pi => render_one_pass camera render_animation oracle pi.1 pi.2 st)
      ⟨s, false, 0⟩
    ⟨false, st.success, st.scene, st.engine_calls⟩

/-- Lines 1141-1147: update the render statistics counters. -/
def update_render_stats (duration : Nat) (s : Scene) : Scene :=
  let ms := s.shotmaster_settings
  { s with shotmaster_settings :=
      { ms with total_renders := ms.total_renders + 1,
                last_render_time := duration,
                total_render_time := ms.total_render_time + duration } }

/-- `ShotMasterManager.render_from_camera` (lines 1070-1160).  Returns the
boolean outcome, the final scene, and the number of render-engine
invocations.  When the body raises (the outer `except`), the counters are
skipped and `False` returned; the `finally` block restores the snapshot in
every case. -/
def render_from_camera (camera : Camera) (render_animation : Bool)
    (is_viewport : Bool) (oracle : RenderOracle) (duration : Nat)
    (s : Scene) : Bool × Scene × Nat :=
  if camera.objType != "CAMERA" then (false, s, 0)
  else
    let r := setup_render_settings camera is_viewport s
    let body := render_body camera render_animation is_viewport oracle r.2
    if body.raised then
      (false, restore_render_settings r.1 body.scene, body.engine_calls)
    else
      (body.success,
        restore_render_settings r.1 (update_render_stats duration body.scene),
        body.engine_calls)

/-! ## Statistics (`get_camera_statistics`, line 1227) -/

/-- The engine under which `get_camera_statistics` counts a camera
(line 1227): the camera's own engine if it has custom render settings, else
the master engine — the group tier is not consulted. -/
def stats_engine_for (camera : Camera) (s : Scene) : String :=
  if camera.shotmaster_camera.use_custom_render_settings then
    camera.shotmaster_camera.render_engine
  else s.shotmaster_settings.master_render_engine

/-- The engine that settings resolution leaves in the environment for a
camera: the engine field of the scene produced by `setup_render_settings`. -/
def resolved_engine (camera : Camera) (s : Scene) : String :=
  ((setup_render_settings camera false s).2).engine

/-! ## Concrete fixtures used by counterexamples and witnesses -/

/-- Camera properties with every override disabled. -/
def basePropFields : CameraProps :=
  { group := ""
    use_custom_render_settings := false
    render_engine := "CYCLES"
    use_custom_resolution := false
    resolution_x := 1920
    resolution_y := 1080
    resolution_percentage := 100
    cycles_samples := 64
    eevee_samples := 32
    use_custom_output_path := false
    output_path := ""
    use_custom_view_layer := false
    view_layer := ""
    use_custom_frames := false
    start_frame := 1
    end_frame := 10
    use_render_passes := false
    render_passes := []
    filename := "shot"
    file_format := "PNG"
    shot_type := ""
    shot_size := ""
    equipment := "" }

/-- A plain camera with no overrides. -/
def baseCamera : Camera := ⟨"Cam", basePropFields, "CAMERA"⟩

/-- Master settings fixture. -/
def baseMaster : MasterSettings :=
  { master_render_engine := "BLENDER_EEVEE"
    master_resolution_x := 1920
    master_resolution_y := 1080
    master_resolution_percentage := 100
    master_cycles_samples := 128
    master_eevee_samples := 64
    master_output_path := "root/"
    master_start_frame := 1
    master_end_frame := 10
    total_renders := 0
    last_render_time := 0
    total_render_time := 0 }

/-- Scene fixture whose pre-call environment values all differ from what
settings resolution would apply. -/
def baseScene : Scene :=
  { engine := "BLENDER_WORKBENCH"
    resolution_x := 800
    resolution_y := 600
    resolution_percentage := 50
    filepath := "old/path"
    file_format := "JPEG"
    camera := none
    frame_start := 3
    frame_end := 7
    cycles_samples := 10
    eevee_samples := 20
    view_layer := "ViewLayer"
    view_layers := ["ViewLayer", "Extra"]
    shotmaster_camera_groups := []
    shotmaster_settings := baseMaster
    blend_dir := "/blend/" }

/-- An oracle under which every host call succeeds. -/
def allOkOracle : RenderOracle := ⟨true, fun _ => true, fun _ => true⟩

/-- Camera of the C3 scenario: resolution override toggled on while the
render-settings toggle is off, and a custom frame range. -/
def c3Camera : Camera :=
  ⟨"Cam3",
    { basePropFields with
        use_custom_resolution := true
        resolution_x := 111
        resolution_y := 222
        resolution_percentage := 75
        use_custom_frames := true
        start_frame := 5
        end_frame := 20 },
    "CAMERA"⟩

/-- Camera with three enabled render passes. -/
def c4Camera : Camera :=
  ⟨"Cam4",
    { basePropFields with
        use_render_passes := true
        render_passes :=
          [⟨"beauty", "COMBINED", true⟩, ⟨"depth", "DEPTH", true⟩, ⟨"ao", "AO", true⟩] },
    "CAMERA"⟩

/-- Oracle under which exactly the second render-engine invocation fails. -/
def failSecondOracle : RenderOracle := ⟨true, fun _ => true, fun i => i != 1⟩

/-- Camera whose pass list is non-empty but entirely disabled. -/
def disabledPassCam : Camera :=
  ⟨"Cam5",
    { basePropFields with
        use_render_passes := true
        render_passes := [⟨"beauty", "COMBINED", false⟩] },
    "CAMERA"⟩

/-- Camera whose group reference names no existing group of `baseScene`. -/
def ghostCam : Camera := ⟨"CamA", { basePropFields with group := "Ghost" }, "CAMERA"⟩

/-- `ghostCam` with its group reference cleared. -/
def ghostCamUngrouped : Camera :=
  ⟨"CamA", { basePropFields with group := "" }, "CAMERA"⟩

/-- A group "G" overriding the render engine to Cycles. -/
def cyclesGroup : Group :=
  { name := "G"
    use_custom_render_settings := true
    render_engine := "CYCLES"
    use_custom_resolution := false
    resolution_x := 1920
    resolution_y := 1080
    resolution_percentage := 100
    cycles_samples := 256
    eevee_samples := 128
    use_custom_output_path := false
    output_path := ""
    use_custom_view_layer := false
    view_layer := "" }

/-- `baseScene` extended with the group "G". -/
def groupedScene : Scene :=
  { baseScene with shotmaster_camera_groups := [cyclesGroup] }

/-- A camera that belongs to group "G" and has no overrides of its own. -/
def groupedCam : Camera := ⟨"Cam6", { basePropFields with group := "G" }, "CAMERA"⟩

/-- Group "Ext" with no overrides, and a scene containing it, for the C8
scenario. -/
def extGroup : Group :=
  { name := "Ext"
    use_custom_render_settings := false
    render_engine := "CYCLES"
    use_custom_resolution := false
    resolution_x := 1920
    resolution_y := 1080
    resolution_percentage := 100
    cycles_samples := 256
    eevee_samples := 128
    use_custom_output_path := false
    output_path := ""
    use_custom_view_layer := false
    view_layer := "" }

/-- Scene with master base path `root/` and group "Ext". -/
def extScene : Scene :=
  { baseScene with shotmaster_camera_groups := [extGroup] }

/-- Camera "Shot A" in group "Ext" with no output-path override. -/
def shotACam : Camera := ⟨"Shot A", { basePropFields with group := "Ext" }, "CAMERA"⟩

/-! ## General lemmas about sanitization -/

theorem mem_of_mem_stripSpaces {c : Char} {l : List Char}
    (h : c ∈ stripSpaces l) : c ∈ l := by
  unfold stripSpaces at h
  rw [List.mem_reverse] at h
  have h2 := (List.dropWhile_sublist (fun c => c == ' ')).subset h
  rw [List.mem_reverse] at h2
  exact (List.dropWhile_sublist (fun c => c == ' ')).subset h2

theorem dropWhile_eq_self_of_forall {p : Char → Bool} {l : List Char}
    (h : ∀ c ∈ l, p c = false) : l.dropWhile p = l := by
  cases l with
  | nil => rfl
  | cons a t => rw [List.dropWhile_cons, h a (List.mem_cons_self a t)]; simp

theorem stripSpaces_eq_self {l : List Char}
    (h : ∀ c ∈ l, (c == ' ') = false) : stripSpaces l = l := by
  unfold stripSpaces
  rw [dropWhile_eq_self_of_forall h]
  rw [dropWhile_eq_self_of_forall (fun c hc => h c (List.mem_reverse.mp hc))]
  exact List.reverse_reverse l

/-- Every character of a sanitized name is in the kept class and is not a
space. -/
theorem sanitizeName_chars {c : Char} {nm : String}
    (h : c ∈ (sanitizeName nm).data) : keepChar c = true ∧ (c == ' ') = false := by
  unfold sanitizeName at h
  rw [show (String.mk ((stripSpaces (nm.data.filter keepChar)).map
        (fun c => if c == ' ' then '_' else c))).data =
      (stripSpaces (nm.data.filter keepChar)).map
        (fun c => if c == ' ' then '_' else c) from rfl] at h
  rw [List.mem_map] at h
  obtain ⟨a, ha, rfl⟩ := h
  have hk : keepChar a = true :=
    (List.mem_filter.mp (mem_of_mem_stripSpaces ha)).2
  by_cases hsp : a = ' '
  · subst hsp; exact ⟨by decide, by decide⟩
  · have hb : (a == ' ') = false := by simp [hsp]
    rw [hb]
    simpa [hb] using hk

/-- Sanitizing an already-sanitized string returns it unchanged. -/
theorem sanitizeName_of_clean (t : String)
    (h : ∀ c ∈ t.data, keepChar c = true ∧ (c == ' ') = false) :
    sanitizeName t = t := by
  unfold sanitizeName
  rw [List.filter_eq_self.mpr (fun c hc => (h c hc).1)]
  rw [stripSpaces_eq_self (fun c hc => (h c hc).2)]
  rw [List.map_congr_left (g := id) (fun c hc => by simp [(h c hc).2])]
  rw [List.map_id]

theorem sanitizeName_idem (nm : String) :
    sanitizeName (sanitizeName nm) = sanitizeName nm :=
  sanitizeName_of_clean _ (fun _ hc => sanitizeName_chars hc)

/-! ## General lemmas about the setup/restore lifecycle -/

theorem setup_fst (camera : Camera) (vp : Bool) (s : Scene) :
    (setup_render_settings camera vp s).1 = snapshot_fields s := rfl

theorem snapshot_of_restore (o : OriginalSettings) (s : Scene) :
    snapshot_fields (restore_render_settings o s) = o := rfl

/-- The nine snapshotted fields of the scene returned by any
`render_from_camera` call equal their values in the initial scene. -/
theorem render_restores_snapshot (camera : Camera)
    (render_animation is_viewport : Bool) (oracle : RenderOracle)
    (duration : Nat) (s : Scene) :
    snapshot_fields ((render_from_camera camera render_animation is_viewport
      oracle duration s).2.1) = snapshot_fields s := by
  unfold render_from_camera
  split
  · rfl
  · dsimp only
    split <;> rfl

/-! ## Projection lemmas for the resolution pipeline -/

theorem apply_master_settings_engine (s : Scene) :
    (apply_master_settings s).engine = s.shotmaster_settings.master_render_engine := by
  unfold apply_master_settings; dsimp only; (repeat' split) <;> rfl

theorem apply_master_settings_res (s : Scene) :
    (apply_master_settings s).resolution_x = s.shotmaster_settings.master_resolution_x ∧
    (apply_master_settings s).resolution_y = s.shotmaster_settings.master_resolution_y ∧
    (apply_master_settings s).resolution_percentage =
      s.shotmaster_settings.master_resolution_percentage := by
  unfold apply_master_settings; dsimp only; (repeat' split) <;> exact ⟨rfl, rfl, rfl⟩

theorem apply_master_settings_settings (s : Scene) :
    (apply_master_settings s).shotmaster_settings = s.shotmaster_settings := by
  unfold apply_master_settings; dsimp only; (repeat' split) <;> rfl

theorem apply_master_settings_groups (s : Scene) :
    (apply_master_settings s).shotmaster_camera_groups = s.shotmaster_camera_groups := by
  unfold apply_master_settings; dsimp only; (repeat' split) <;> rfl

theorem apply_group_settings_of_empty (c : Camera) (s : Scene)
    (h : c.shotmaster_camera.group = "") : apply_group_settings c s = s := by
  unfold apply_group_settings; dsimp only
  rw [if_pos (by simp [h])]

theorem apply_group_settings_of_find_none (c : Camera) (s : Scene)
    (h : s.shotmaster_camera_groups.find?
      (fun g => g.name == c.shotmaster_camera.group) = none) :
    apply_group_settings c s = s := by
  unfold apply_group_settings; dsimp only
  split
  · rfl
  · rw [h]

theorem apply_group_settings_settings (c : Camera) (s : Scene) :
    (apply_group_settings c s).shotmaster_settings = s.shotmaster_settings := by
  unfold apply_group_settings; dsimp only; (repeat' split) <;> rfl

/-- When the group found for the camera (if any) has no render-settings
override, the group step leaves the engine unchanged. -/
theorem apply_group_settings_engine_of_no_override (c : Camera) (s : Scene)
    (h : ∀ g, s.shotmaster_camera_groups.find?
        (fun g => g.name == c.shotmaster_camera.group) = some g →
      g.use_custom_render_settings = false) :
    (apply_group_settings c s).engine = s.engine := by
  unfold apply_group_settings; dsimp only
  split
  · rfl
  · split
    · rfl
    · rename_i group heq
      rw [h group heq]
      (repeat' split) <;> simp_all

theorem apply_camera_render_settings_of_not (c : Camera) (s : Scene)
    (h : c.shotmaster_camera.use_custom_render_settings = false) :
    apply_camera_render_settings c s = s := by
  unfold apply_camera_render_settings; dsimp only
  rw [if_neg (by simp [h])]

theorem apply_camera_render_settings_engine_of_custom (c : Camera) (s : Scene)
    (h : c.shotmaster_camera.use_custom_render_settings = true) :
    (apply_camera_render_settings c s).engine = c.shotmaster_camera.render_engine := by
  unfold apply_camera_render_settings; dsimp only
  rw [if_pos (by simp [h])]
  (repeat' split) <;> rfl

theorem apply_camera_render_settings_settings (c : Camera) (s : Scene) :
    (apply_camera_render_settings c s).shotmaster_settings = s.shotmaster_settings := by
  unfold apply_camera_render_settings; dsimp only; (repeat' split) <;> rfl

/-- The four pipeline steps after the render-settings tiers (view layer,
frame range, active camera, output format) do not change the engine. -/
theorem trailing_engine (c : Camera) (vp : Bool) (s : Scene) :
    (apply_output_format c vp (apply_active_camera c (apply_frame_range c
      (apply_camera_view_layer c s)))).engine = s.engine := by
  unfold apply_output_format apply_active_camera apply_frame_range apply_camera_view_layer
  dsimp only; (repeat' split) <;> rfl

/-- The trailing pipeline steps do not change the resolution. -/
theorem trailing_res (c : Camera) (vp : Bool) (s : Scene) :
    (apply_output_format c vp (apply_active_camera c (apply_frame_range c
      (apply_camera_view_layer c s)))).resolution_x = s.resolution_x ∧
    (apply_output_format c vp (apply_active_camera c (apply_frame_range c
      (apply_camera_view_layer c s)))).resolution_y = s.resolution_y ∧
    (apply_output_format c vp (apply_active_camera c (apply_frame_range c
      (apply_camera_view_layer c s)))).resolution_percentage = s.resolution_percentage := by
  unfold apply_output_format apply_active_camera apply_frame_range apply_camera_view_layer
  dsimp only; (repeat' split) <;> exact ⟨rfl, rfl, rfl⟩

/-- The trailing pipeline steps do not change the statistics counters. -/
theorem trailing_settings (c : Camera) (vp : Bool) (s : Scene) :
    (apply_output_format c vp (apply_active_camera c (apply_frame_range c
      (apply_camera_view_layer c s)))).shotmaster_settings = s.shotmaster_settings := by
  unfold apply_output_format apply_active_camera apply_frame_range apply_camera_view_layer
  dsimp only; (repeat' split) <;> rfl

/-- With the camera's frame override set, the trailing steps leave the
camera's frame range in the environment. -/
theorem trailing_frames_of_custom (c : Camera) (vp : Bool) (s : Scene)
    (h : c.shotmaster_camera.use_custom_frames = true) :
    (apply_output_format c vp (apply_active_camera c (apply_frame_range c
      (apply_camera_view_layer c s)))).frame_start = c.shotmaster_camera.start_frame ∧
    (apply_output_format c vp (apply_active_camera c (apply_frame_range c
      (apply_camera_view_layer c s)))).frame_end = c.shotmaster_camera.end_frame := by
  unfold apply_output_format apply_active_camera apply_frame_range apply_camera_view_layer
  dsimp only
  (repeat' split) <;> simp_all

/-! ## Lemmas about the pass loop and the orchestrator -/

theorem render_one_pass_settings (c : Camera) (anim : Bool) (oracle : RenderOracle)
    (idx : Nat) (pn : Option String) (st : PassState) :
    (render_one_pass c anim oracle idx pn st).scene.shotmaster_settings =
      st.scene.shotmaster_settings := by
  unfold render_one_pass; dsimp only; (repeat' split) <;> rfl

theorem render_loop_settings (c : Camera) (anim : Bool) (oracle : RenderOracle)
    (l : List (Nat × Option String)) (st : PassState) :
    (l.foldl (fun st pi => render_one_pass c anim oracle pi.1 pi.2 st)
      st).scene.shotmaster_settings = st.scene.shotmaster_settings := by
  induction l generalizing st with
  | nil => rfl
  | cons p t ih => rw [List.foldl_cons, ih, render_one_pass_settings]

theorem render_body_raised_false (c : Camera) (anim : Bool) (oracle : RenderOracle)
    (s : Scene) : (render_body c anim false oracle s).raised = false := rfl

theorem render_body_settings (c : Camera) (anim : Bool) (oracle : RenderOracle)
    (s : Scene) :
    (render_body c anim false oracle s).scene.shotmaster_settings =
      s.shotmaster_settings := by
  unfold render_body; dsimp only
  exact render_loop_settings c anim oracle _ _

theorem restore_render_settings_settings (o : OriginalSettings) (s : Scene) :
    (restore_render_settings o s).shotmaster_settings = s.shotmaster_settings := rfl

theorem setup_settings (camera : Camera) (vp : Bool) (s : Scene) :
    ((setup_render_settings camera vp s).2).shotmaster_settings =
      s.shotmaster_settings := by
  unfold setup_render_settings; dsimp only
  rw [trailing_settings, apply_camera_render_settings_settings,
      apply_group_settings_settings, apply_master_settings_settings]

/-- When every directory creation succeeds, one pass-loop iteration makes
exactly one engine invocation and ors its outcome into the success flag. -/
theorem render_one_pass_proj_of_mkdir (c : Camera) (anim : Bool)
    (oracle : RenderOracle) (idx : Nat) (pn : Option String) (st : PassState)
    (hmk : ∀ d, oracle.mkdir_ok d = true) :
    (render_one_pass c anim oracle idx pn st).success =
      (st.success || oracle.render_ok idx) ∧
    (render_one_pass c anim oracle idx pn st).engine_calls =
      st.engine_calls + 1 := by
  unfold render_one_pass; dsimp only
  rw [hmk]
  exact ⟨rfl, rfl⟩

end ShotMaster

namespace ShotMaster

/-! ## Claims -/

/-- Claim C1, counterexample.  The claim states that after `render_from_camera`
no field of the shared render environment differs from its pre-call value,
explicitly including the per-engine sample counts.  It is false: the snapshot
of lines 962-972 omits the sample counts, so the Eevee sample count written by
`setup_render_settings` (line 983) survives the restoration.  Concretely, a
fully successful render of a camera with no overrides leaves the Eevee sample
count changed from 20 to the master value 64. -/
theorem c1_counterexample :
    ((render_from_camera baseCamera false false allOkOracle 5
        baseScene).2.1).eevee_samples ≠ baseScene.eevee_samples := by decide

/-- Claim C1, amended: after any `render_from_camera` call each of the nine
snapshotted fields (engine, resolution x/y/percentage, output filepath, file
format, active camera, frame start/end) equals its pre-call value — but the
per-engine sample counts and the active view layer are not snapshotted and
may be left mutated (see the counterexample). -/
theorem c1_amended_snapshot_restored (camera : Camera)
    (render_animation is_viewport : Bool) (oracle : RenderOracle)
    (duration : Nat) (s : Scene) :
    ((render_from_camera camera render_animation is_viewport oracle duration
        s).2.1).engine = s.engine ∧
    ((render_from_camera camera render_animation is_viewport oracle duration
        s).2.1).resolution_x = s.resolution_x ∧
    ((render_from_camera camera render_animation is_viewport oracle duration
        s).2.1).resolution_y = s.resolution_y ∧
    ((render_from_camera camera render_animation is_viewport oracle duration
        s).2.1).resolution_percentage = s.resolution_percentage ∧
    ((render_from_camera camera render_animation is_viewport oracle duration
        s).2.1).filepath = s.filepath ∧
    ((render_from_camera camera render_animation is_viewport oracle duration
        s).2.1).file_format = s.file_format ∧
    ((render_from_camera camera render_animation is_viewport oracle duration
        s).2.1).camera = s.camera ∧
    ((render_from_camera camera render_animation is_viewport oracle duration
        s).2.1).frame_start = s.frame_start ∧
    ((render_from_camera camera render_animation is_viewport oracle duration
        s).2.1).frame_end = s.frame_end := by
  have h := render_restores_snapshot camera render_animation is_viewport
    oracle duration s
  exact ⟨congrArg OriginalSettings.engine h,
    congrArg OriginalSettings.resolution_x h,
    congrArg OriginalSettings.resolution_y h,
    congrArg OriginalSettings.resolution_percentage h,
    congrArg OriginalSettings.filepath h,
    congrArg OriginalSettings.file_format h,
    congrArg OriginalSettings.active_camera h,
    congrArg OriginalSettings.frame_start h,
    congrArg OriginalSettings.frame_end h⟩

/-- Claim C2: on every outcome of `render_from_camera` — the camera-validity
early return, the viewport branch with a raising OpenGL call, any combination
of per-pass directory and engine failures — the step-1 snapshot is restored
before returning, so every snapshotted field (engine, resolution
x/y/percentage, output filepath, file format, active camera, frame start,
frame end) of the returned scene equals its pre-call value. -/
theorem c2_restoration_always_runs (camera : Camera)
    (render_animation is_viewport : Bool) (oracle : RenderOracle)
    (duration : Nat) (s : Scene) :
    snapshot_fields ((render_from_camera camera render_animation is_viewport
      oracle duration s).2.1) = snapshot_fields s :=
  render_restores_snapshot camera render_animation is_viewport oracle
    duration s

/-- Claim C8: camera "Shot A" in group "Ext" with master base path "root/"
and no output-path override at camera or group level resolves to
"root/Ext/Shot_A/stills" for a still with no pass name, and to
"root/Ext/Shot_A/animation/depth" for an animation with pass name "depth". -/
theorem c8_path_examples :
    get_camera_output_path shotACam false none extScene =
      "root/Ext/Shot_A/stills" ∧
    get_camera_output_path shotACam true (some "depth") extScene =
      "root/Ext/Shot_A/animation/depth" := by decide

/-- Claim C9: path resolution is deterministic — two calls of
`get_camera_output_path` on identical camera, scene and arguments yield the
identical string — and the name sanitization of lines 926-927/934-935 (keep
alphanumerics, space, underscore, hyphen; strip; spaces to underscores) is
idempotent. -/
theorem c9_deterministic_and_idempotent :
    (∀ (camera : Camera) (anim : Bool) (pn : Option String) (s : Scene),
      get_camera_output_path camera anim pn s =
        get_camera_output_path camera anim pn s) ∧
    (∀ nm : String, sanitizeName (sanitizeName nm) = sanitizeName nm) :=
  ⟨fun _ _ _ _ => rfl, sanitizeName_idem⟩

/-- Claim C10: a camera whose `use_render_passes` flag is true and whose pass
list contains no enabled pass yields an empty pass sequence, so a
(non-viewport) `render_from_camera` call invokes the render engine zero times
and returns failure (`False`). -/
theorem c10_no_enabled_passes (camera : Camera) (anim : Bool)
    (oracle : RenderOracle) (duration : Nat) (s : Scene)
    (huse : camera.shotmaster_camera.use_render_passes = true)
    (hdis : ∀ p ∈ camera.shotmaster_camera.render_passes, p.enabled = false) :
    (render_from_camera camera anim false oracle duration s).1 = false ∧
    (render_from_camera camera anim false oracle duration s).2.2 = 0 := by
  have hp : passes_to_render camera = [] := by
    unfold passes_to_render
    rw [if_pos (by simp [huse])]
    rw [List.filter_eq_nil_iff.mpr (fun p hmem => by simp [hdis p hmem])]
    rfl
  unfold render_from_camera
  split
  · exact ⟨rfl, rfl⟩
  · dsimp only
    have hb : render_body camera anim false oracle
        (setup_render_settings camera false s).2 =
        ⟨false, false, (setup_render_settings camera false s).2, 0⟩ := by
      unfold render_body
      dsimp only
      rw [hp]
      rfl
    rw [hb]
    simp

/-- Claim C3, counterexample.  The claim states that a camera with
`use_custom_resolution` set but `use_custom_render_settings` unset gets the
camera's resolution.  It is false: in the source (lines 1011-1017) the
resolution override is nested inside the `use_custom_render_settings` branch,
so such a camera keeps the master resolution (1920) instead of its own
(111). -/
theorem c3_counterexample :
    c3Camera.shotmaster_camera.use_custom_resolution = true ∧
    c3Camera.shotmaster_camera.use_custom_render_settings = false ∧
    ((setup_render_settings c3Camera false baseScene).2).resolution_x =
      baseScene.shotmaster_settings.master_resolution_x ∧
    ((setup_render_settings c3Camera false baseScene).2).resolution_x ≠
      c3Camera.shotmaster_camera.resolution_x := by decide

/-- Claim C3, amended: resolution, engine and samples form a single
field-group gated by `use_custom_render_settings` — a camera (here ungrouped)
without that toggle inherits both engine and resolution from the master tier
even when `use_custom_resolution` is set — while the frame range still
resolves independently through `use_custom_frames` (as do output path and
view layer). -/
theorem c3_amended_resolution_gated (camera : Camera) (s : Scene)
    (h1 : camera.shotmaster_camera.use_custom_render_settings = false)
    (h2 : camera.shotmaster_camera.group = "")
    (h3 : camera.shotmaster_camera.use_custom_frames = true) :
    ((setup_render_settings camera false s).2).resolution_x =
      s.shotmaster_settings.master_resolution_x ∧
    ((setup_render_settings camera false s).2).resolution_y =
      s.shotmaster_settings.master_resolution_y ∧
    ((setup_render_settings camera false s).2).resolution_percentage =
      s.shotmaster_settings.master_resolution_percentage ∧
    ((setup_render_settings camera false s).2).engine =
      s.shotmaster_settings.master_render_engine ∧
    ((setup_render_settings camera false s).2).frame_start =
      camera.shotmaster_camera.start_frame ∧
    ((setup_render_settings camera false s).2).frame_end =
      camera.shotmaster_camera.end_frame := by
  have hs : (setup_render_settings camera false s).2 =
      apply_output_format camera false (apply_active_camera camera
        (apply_frame_range camera (apply_camera_view_layer camera
          (apply_master_settings s)))) := by
    unfold setup_render_settings
    dsimp only
    rw [apply_group_settings_of_empty camera _ h2,
        apply_camera_render_settings_of_not camera _ h1]
  rw [hs]
  refine ⟨?_, ?_, ?_, ?_, ?_, ?_⟩
  · rw [(trailing_res camera false _).1, (apply_master_settings_res s).1]
  · rw [(trailing_res camera false _).2.1, (apply_master_settings_res s).2.1]
  · rw [(trailing_res camera false _).2.2, (apply_master_settings_res s).2.2]
  · rw [trailing_engine, apply_master_settings_engine]
  · exact (trailing_frames_of_custom camera false _ h3).1
  · exact (trailing_frames_of_custom camera false _ h3).2

/-- Witness for amended C3 at a camera with a resolution override, no
render-settings override and a custom frame range. -/
theorem c3_amended_resolution_gated_witness :
    ((setup_render_settings c3Camera false baseScene).2).resolution_x =
      baseScene.shotmaster_settings.master_resolution_x ∧
    ((setup_render_settings c3Camera false baseScene).2).resolution_y =
      baseScene.shotmaster_settings.master_resolution_y ∧
    ((setup_render_settings c3Camera false baseScene).2).resolution_percentage =
      baseScene.shotmaster_settings.master_resolution_percentage ∧
    ((setup_render_settings c3Camera false baseScene).2).engine =
      baseScene.shotmaster_settings.master_render_engine ∧
    ((setup_render_settings c3Camera false baseScene).2).frame_start =
      c3Camera.shotmaster_camera.start_frame ∧
    ((setup_render_settings c3Camera false baseScene).2).frame_end =
      c3Camera.shotmaster_camera.end_frame :=
  c3_amended_resolution_gated c3Camera baseScene (by decide) (by decide)
    (by decide)

/-- Claim C4, counterexample.  The claim states that when exactly one of
three enabled passes fails, the reported outcome is `partial`, one value of a
three-valued result.  It is false: `render_from_camera` returns a boolean
that is true whenever at least one pass succeeded (line 1135), so the
one-failure job reports exactly the same value (`True`) as the all-success
job — no distinct partial value exists. -/
theorem c4_counterexample :
    (render_from_camera c4Camera false false failSecondOracle 7 baseScene).1 =
      true ∧
    (render_from_camera c4Camera false false allOkOracle 7 baseScene).1 =
      true := by decide

/-- Claim C4, amended: when one of three enabled passes fails (directory
creation succeeding throughout), the failure does not abort the remaining
passes — the engine is invoked for all three passes, so the other two
outputs are produced — and the reported outcome is the boolean `True`
(true iff at least one pass succeeded), the code having no three-valued
success/partial/failure result. -/
theorem c4_amended_partial_reports_true (camera : Camera)
    (oracle : RenderOracle) (anim : Bool) (duration : Nat) (s : Scene)
    (p0 p1 p2 : RenderPass)
    (htype : camera.objType = "CAMERA")
    (huse : camera.shotmaster_camera.use_render_passes = true)
    (hfilter : camera.shotmaster_camera.render_passes.filter
      (fun p => p.enabled) = [p0, p1, p2])
    (hmk : ∀ d, oracle.mkdir_ok d = true)
    (h0 : oracle.render_ok 0 = true) (h1 : oracle.render_ok 1 = false)
    (h2 : oracle.render_ok 2 = true) :
    (render_from_camera camera anim false oracle duration s).1 = true ∧
    (render_from_camera camera anim false oracle duration s).2.2 = 3 := by
  have hp : passes_to_render camera =
      [some p0.name, some p1.name, some p2.name] := by
    unfold passes_to_render
    rw [if_pos (by simp [huse]), hfilter]
    rfl
  have hbody : ∀ t : Scene,
      (render_body camera anim false oracle t).success = true ∧
      (render_body camera anim false oracle t).engine_calls = 3 := by
    intro t
    unfold render_body
    dsimp only
    rw [hp]
    simp only [List.enum, List.enumFrom, List.foldl_cons, List.foldl_nil]
    constructor
    · rw [(render_one_pass_proj_of_mkdir camera anim oracle _ _ _ hmk).1,
          (render_one_pass_proj_of_mkdir camera anim oracle _ _ _ hmk).1,
          (render_one_pass_proj_of_mkdir camera anim oracle _ _ _ hmk).1]
      simp [h0, h1, h2]
    · rw [(render_one_pass_proj_of_mkdir camera anim oracle _ _ _ hmk).2,
          (render_one_pass_proj_of_mkdir camera anim oracle _ _ _ hmk).2,
          (render_one_pass_proj_of_mkdir camera anim oracle _ _ _ hmk).2]
      simp
  unfold render_from_camera
  rw [if_neg (by simp [htype])]
  dsimp only
  rw [render_body_raised_false]
  rw [if_neg (by simp)]
  exact ⟨(hbody _).1, (hbody _).2⟩

/-- Witness for amended C4: three enabled passes with the second engine
invocation failing report `True` with three engine invocations. -/
theorem c4_amended_partial_reports_true_witness :
    (render_from_camera c4Camera false false failSecondOracle 7 baseScene).1 =
      true ∧
    (render_from_camera c4Camera false false failSecondOracle 7
        baseScene).2.2 = 3 :=
  c4_amended_partial_reports_true c4Camera failSecondOracle false 7 baseScene
    ⟨"beauty", "COMBINED", true⟩ ⟨"depth", "DEPTH", true⟩ ⟨"ao", "AO", true⟩
    rfl (by decide) (by decide) (fun d => rfl) rfl rfl rfl

/-- Claim C5, counterexample.  The claim states that the MasterSettings
counters are updated if and only if the outcome is success or partial
success.  It is false: the counter update (lines 1145-1147) runs whenever the
try-body completes, including a total failure — here a job with zero enabled
passes returns `False` yet increments `total_renders`. -/
theorem c5_counterexample :
    (render_from_camera disabledPassCam false false allOkOracle 5
        baseScene).1 = false ∧
    ((render_from_camera disabledPassCam false false allOkOracle 5
        baseScene).2.1).shotmaster_settings.total_renders =
      baseScene.shotmaster_settings.total_renders + 1 := by decide

/-- Claim C5, amended: for every non-viewport invocation on a valid camera
the counters are updated regardless of the outcome (success, partial or total
failure): the total render count increments by exactly 1 per invocation (one
job, not per pass), the last-render duration records this job's duration and
the cumulative duration grows by it. -/
theorem c5_amended_counters_always_update (camera : Camera) (anim : Bool)
    (oracle : RenderOracle) (duration : Nat) (s : Scene)
    (h : camera.objType = "CAMERA") :
    ((render_from_camera camera anim false oracle duration
        s).2.1).shotmaster_settings =
      { s.shotmaster_settings with
          total_renders := s.shotmaster_settings.total_renders + 1
          last_render_time := duration
          total_render_time :=
            s.shotmaster_settings.total_render_time + duration } := by
  unfold render_from_camera
  rw [if_neg (by simp [h])]
  dsimp only
  rw [render_body_raised_false]
  rw [if_neg (by simp)]
  dsimp only
  rw [restore_render_settings_settings]
  unfold update_render_stats
  dsimp only
  rw [render_body_settings, setup_settings]

/-- Witness for amended C5: a fully successful single-pass job increments the
counters from the base scene. -/
theorem c5_amended_counters_always_update_witness :
    ((render_from_camera baseCamera false false allOkOracle 5
        baseScene).2.1).shotmaster_settings =
      { baseScene.shotmaster_settings with
          total_renders := baseScene.shotmaster_settings.total_renders + 1
          last_render_time := 5
          total_render_time :=
            baseScene.shotmaster_settings.total_render_time + 5 } :=
  c5_amended_counters_always_update baseCamera false allOkOracle 5 baseScene
    rfl

/-- Claim C6, counterexample.  The claim states that the statistics
aggregator counts each camera under the engine that settings resolution would
apply, including the group tier.  It is false: line 1227 consults only the
camera override and the master default, so a camera inheriting its engine
from a group override is counted under the master engine. -/
theorem c6_counterexample :
    stats_engine_for groupedCam groupedScene = "BLENDER_EEVEE" ∧
    resolved_engine groupedCam groupedScene = "CYCLES" ∧
    stats_engine_for groupedCam groupedScene ≠
      resolved_engine groupedCam groupedScene := by decide

/-- Claim C6, amended: the statistics aggregator applies only the two-tier
precedence camera > master to the engine field, so it agrees with the engine
resolved by `setup_render_settings` exactly on cameras that either carry
their own render-settings override or whose group lookup yields no group
with a render-settings override. -/
theorem c6_amended_stats_engine_two_tier (camera : Camera) (s : Scene)
    (h : camera.shotmaster_camera.use_custom_render_settings = true ∨
      ∀ g, s.shotmaster_camera_groups.find?
          (fun g => g.name == camera.shotmaster_camera.group) = some g →
        g.use_custom_render_settings = false) :
    stats_engine_for camera s = resolved_engine camera s := by
  unfold resolved_engine setup_render_settings stats_engine_for
  dsimp only
  rw [trailing_engine]
  by_cases hc : camera.shotmaster_camera.use_custom_render_settings = true
  · rw [apply_camera_render_settings_engine_of_custom _ _ hc,
        if_pos (by simp [hc])]
  · have hcf : camera.shotmaster_camera.use_custom_render_settings = false :=
      by simpa using hc
    have hg := h.resolve_left hc
    rw [if_neg (by simp [hcf]),
        apply_camera_render_settings_of_not _ _ hcf,
        apply_group_settings_engine_of_no_override _ _
          (fun g hgf => hg g (by rwa [apply_master_settings_groups] at hgf)),
        apply_master_settings_engine]

/-- Witness for amended C6 at an ungrouped camera with no overrides: both
sides resolve to the master engine. -/
theorem c6_amended_stats_engine_two_tier_witness :
    stats_engine_for baseCamera baseScene =
      resolved_engine baseCamera baseScene :=
  c6_amended_stats_engine_two_tier baseCamera baseScene
    (Or.inr (fun g hg => by simp [baseScene] at hg))

/-- Claim C7, counterexample.  The claim states that a camera whose
non-empty group reference names no existing group derives its output path as
an ungrouped camera would, with the literal "ungrouped" segment.  It is
false: lines 924-928 build the group segment from the (sanitized) dangling
group name whenever the reference is non-empty, existing group or not. -/
theorem c7_counterexample :
    get_camera_output_path ghostCam false none baseScene =
      "root/Ghost/CamA/stills" ∧
    get_camera_output_path ghostCamUngrouped false none baseScene =
      "root/ungrouped/CamA/stills" ∧
    get_camera_output_path ghostCam false none baseScene ≠
      get_camera_output_path ghostCamUngrouped false none baseScene := by
  decide

/-- Claim C7, amended: a non-empty group reference naming no existing group
raises no error and applies no group-level override at any field-group —
settings resolution equals the pipeline with the group step skipped, and the
output path equals the one computed over an empty group collection — but the
path's group segment is the sanitized dangling group name, not the literal
"ungrouped" (see the counterexample). -/
theorem c7_amended_missing_group (camera : Camera) (anim vp : Bool)
    (pn : Option String) (s : Scene)
    (_hg : camera.shotmaster_camera.group ≠ "")
    (hmiss : ∀ g ∈ s.shotmaster_camera_groups,
      g.name ≠ camera.shotmaster_camera.group) :
    (setup_render_settings camera vp s).2 =
      apply_output_format camera vp (apply_active_camera camera
        (apply_frame_range camera (apply_camera_view_layer camera
          (apply_camera_render_settings camera
            (apply_master_settings s))))) ∧
    get_camera_output_path camera anim pn s =
      get_camera_output_path camera anim pn
        { s with shotmaster_camera_groups := [] } := by
  have hfind1 : s.shotmaster_camera_groups.find?
      (fun g => g.name == camera.shotmaster_camera.group) = none :=
    List.find?_eq_none.mpr (fun g hgm => by simp [hmiss g hgm])
  have hfind2 : s.shotmaster_camera_groups.find?
      (fun g => g.name == camera.shotmaster_camera.group
        && g.use_custom_output_path) = none :=
    List.find?_eq_none.mpr (fun g hgm => by simp [hmiss g hgm])
  constructor
  · unfold setup_render_settings
    dsimp only
    rw [apply_group_settings_of_find_none camera _
      (by rw [apply_master_settings_groups]; exact hfind1)]
  · unfold get_camera_output_path
    dsimp only
    rw [hfind2]
    simp only [List.find?_nil]

/-- Witness for amended C7 at a camera referencing the nonexistent group
"Ghost" in a scene with no groups. -/
theorem c7_amended_missing_group_witness :
    (setup_render_settings ghostCam false baseScene).2 =
      apply_output_format ghostCam false (apply_active_camera ghostCam
        (apply_frame_range ghostCam (apply_camera_view_layer ghostCam
          (apply_camera_render_settings ghostCam
            (apply_master_settings baseScene))))) ∧
    get_camera_output_path ghostCam false none baseScene =
      get_camera_output_path ghostCam false none
        { baseScene with shotmaster_camera_groups := [] } :=
  c7_amended_missing_group ghostCam false false none baseScene (by decide)
    (by simp [baseScene])

/-- Witness for C10 at a camera whose single pass is disabled. -/
theorem c10_no_enabled_passes_witness :
    (render_from_camera disabledPassCam false false allOkOracle 5
        baseScene).1 = false ∧
    (render_from_camera disabledPassCam false false allOkOracle 5
        baseScene).2.2 = 0 :=
  c10_no_enabled_passes disabledPassCam false allOkOracle 5 baseScene
    (by decide) (by decide)

end ShotMaster
